import Mathlib

/-!
Verification of the Drone Telemetry Dashboard repository.

Shallow embedding of the two source files:
  - dashboard.py : the DataStore bounded history store, the queue-draining
    callback, the websocket client retry loop, and the 3D pose transform.
  - transmitter.py : the DroneDataGenerator simulation model.

Python floats are modelled by exact rationals (and by reals for the
trigonometric pose math). Random draws, the wall clock, and the values that
math.sin / math.cos return for the current phase are supplied to each tick
as explicit inputs, so every definition stays executable.
-/

namespace DroneTelemetry

/-! Python primitives used by the sources. -/

/-- Python list slicing l[s:] (an int slice with no stop index): a negative
start counts from the end and is clamped below at 0, a nonnegative start is
clamped above at the length. The trim step of DataStore.add_data uses the
slice l[-max_points:], i.e. pySliceFrom (-max_points). -/
def pySliceFrom (s : ℤ) (l : List α) : List α :=
  if s < 0 then l.drop (((l.length : ℤ) + s).toNat)
  else l.drop (min l.length s.toNat)

/-- Python modulo on numbers: a % b = a - b * floor (a / b); for b > 0 the
result lies in [0, b). Used by the yaw update of transmitter.py line 54. -/
def pymod (a b : ℚ) : ℚ := a - b * ⌊a / b⌋

/-- Rounding of a number to the nearest integer with ties going to the even
integer, which is what Python round() does. -/
def roundHalfEven (q : ℚ) : ℤ :=
  if q - ⌊q⌋ < 1 / 2 then ⌊q⌋
  else if 1 / 2 < q - ⌊q⌋ then ⌊q⌋ + 1
  else if ⌊q⌋ % 2 = 0 then ⌊q⌋ else ⌊q⌋ + 1

/-- Python round(q, n): scale by 10 ^ n, round half to even, scale back. -/
def pyRound (n : ℕ) (q : ℚ) : ℚ := (roundHalfEven (q * 10 ^ n) : ℚ) / 10 ^ n

/-! The bounded history store of dashboard.py (class DataStore, lines 24-67). -/

/-- An incoming message as seen by DataStore.add_data: a dictionary whose
fields may be missing or malformed. A field holds none when the dynamic
access data[...] would raise (missing key or, for the timestamp, a string
datetime.fromisoformat cannot parse); parsed numeric values are rationals. -/
structure Msg where
  timestamp : Option ℚ
  battery_voltage : Option ℚ
  temperature : Option ℚ
  altitude : Option ℚ
  roll : Option ℚ
  pitch : Option ℚ
  yaw : Option ℚ
  latitude : Option ℚ
  longitude : Option ℚ
  signal_strength : Option ℚ
deriving DecidableEq, Repr

/-- The DataStore state: ten parallel series, the configured capacity, and
the latest-sample pointer (dashboard.py lines 25-37). -/
structure DataStore where
  max_points : ℤ
  timestamps : List ℚ
  battery_voltage : List ℚ
  temperature : List ℚ
  altitude : List ℚ
  roll : List ℚ
  pitch : List ℚ
  yaw : List ℚ
  latitude : List ℚ
  longitude : List ℚ
  connection_strength : List ℚ
  latest_data : Option Msg
deriving DecidableEq, Repr

/-- Python module constant MAX_DATA_POINTS (dashboard.py line 18). -/
def MAX_DATA_POINTS : ℤ := 100

/-- DataStore.__init__ (dashboard.py lines 25-37): stores the given
max_points without any validation and starts every series empty. The
module-level store is constructed with the default MAX_DATA_POINTS. -/
def DataStore.init (max_points : ℤ) : DataStore :=
  { max_points := max_points
    timestamps := []
    battery_voltage := []
    temperature := []
    altitude := []
    roll := []
    pitch := []
    yaw := []
    latitude := []
    longitude := []
    connection_strength := []
    latest_data := none }

/-- The trim step of DataStore.add_data (dashboard.py lines 56-67): if the
timestamps series is longer than max_points, every series is replaced by its
slice [-max_points:]. -/
def DataStore.trim (st : DataStore) : DataStore :=
  if st.max_points < (st.timestamps.length : ℤ) then
    { st with
      timestamps := pySliceFrom (-st.max_points) st.timestamps
      battery_voltage := pySliceFrom (-st.max_points) st.battery_voltage
      temperature := pySliceFrom (-st.max_points) st.temperature
      altitude := pySliceFrom (-st.max_points) st.altitude
      roll := pySliceFrom (-st.max_points) st.roll
      pitch := pySliceFrom (-st.max_points) st.pitch
      yaw := pySliceFrom (-st.max_points) st.yaw
      latitude := pySliceFrom (-st.max_points) st.latitude
      longitude := pySliceFrom (-st.max_points) st.longitude
      connection_strength := pySliceFrom (-st.max_points) st.connection_strength }
  else st

/-- DataStore.add_data (dashboard.py lines 39-67), with Python exception
semantics made explicit: latest_data is assigned first; then each field is
read and appended in source order; a missing field raises at that point,
leaving all mutations already performed in place. The returned Bool is true
when the call finished without raising (and so reached the trim step). -/
def DataStore.addData (st : DataStore) (d : Msg) : DataStore × Bool :=
  let st0 := { st with latest_data := some d }
  match d.timestamp with
  | none => (st0, false)
  | some ts =>
  let st1 := { st0 with timestamps := st0.timestamps ++ [ts] }
  match d.battery_voltage with
  | none => (st1, false)
  | some v =>
  let st2 := { st1 with battery_voltage := st1.battery_voltage ++ [v] }
  match d.temperature with
  | none => (st2, false)
  | some t =>
  let st3 := { st2 with temperature := st2.temperature ++ [t] }
  match d.altitude with
  | none => (st3, false)
  | some al =>
  let st4 := { st3 with altitude := st3.altitude ++ [al] }
  match d.roll with
  | none => (st4, false)
  | some r =>
  let st5 := { st4 with roll := st4.roll ++ [r] }
  match d.pitch with
  | none => (st5, false)
  | some p =>
  let st6 := { st5 with pitch := st5.pitch ++ [p] }
  match d.yaw with
  | none => (st6, false)
  | some yw =>
  let st7 := { st6 with yaw := st6.yaw ++ [yw] }
  match d.latitude with
  | none => (st7, false)
  | some la =>
  let st8 := { st7 with latitude := st7.latitude ++ [la] }
  match d.longitude with
  | none => (st8, false)
  | some lo =>
  let st9 := { st8 with longitude := st8.longitude ++ [lo] }
  match d.signal_strength with
  | none => (st9, false)
  | some ss =>
  let st10 := { st9 with connection_strength := st9.connection_strength ++ [ss] }
  (st10.trim, true)

/-- A well-formed sample: every field the dashboard reads is present, with
the timestamp already an ISO-parseable instant. -/
structure Sample where
  timestamp : ℚ
  battery_voltage : ℚ
  temperature : ℚ
  altitude : ℚ
  roll : ℚ
  pitch : ℚ
  yaw : ℚ
  latitude : ℚ
  longitude : ℚ
  signal_strength : ℚ
deriving DecidableEq, Repr

/-- The message a well-formed sample arrives as. -/
def Sample.toMsg (s : Sample) : Msg :=
  { timestamp := some s.timestamp
    battery_voltage := some s.battery_voltage
    temperature := some s.temperature
    altitude := some s.altitude
    roll := some s.roll
    pitch := some s.pitch
    yaw := some s.yaw
    latitude := some s.latitude
    longitude := some s.longitude
    signal_strength := some s.signal_strength }

/-- Feeding a list of messages to the store in order (the add_data calls
performed by successive queue drains). -/
def addAll (st : DataStore) (msgs : List Msg) : DataStore :=
  msgs.foldl (fun s m => (s.addData m).1) st

/-- The store obtained by feeding a list of well-formed samples to a fresh
store of capacity N. -/
def runStore (N : ℤ) (msgs : List Sample) : DataStore :=
  addAll (DataStore.init N) (msgs.map Sample.toMsg)

/-- The queue drain of the interval callback process_queue (dashboard.py
lines 166-174): pop messages and add them to the store until the queue is
empty. The try block catches only queue.Empty, so an exception raised inside
add_data propagates and aborts the drain; the popped message is lost and the
rest of the queue is left for later. Returns the store, the messages still
queued, and whether the drain finished without raising. -/
def processQueue (st : DataStore) : List Msg → DataStore × List Msg × Bool
  | [] => (st, [], true)
  | m :: rest =>
    match st.addData m with
    | (st1, true) => processQueue st1 rest
    | (st1, false) => (st1, rest, false)

/-! The telemetry generator of transmitter.py (class DroneDataGenerator). -/

/-- The five connection health states (transmitter.py line 29). -/
inductive ConnStatus
  | excellent
  | good
  | fair
  | poor
  | noSignal
deriving DecidableEq, Repr

/-- DroneDataGenerator._get_signal_strength (transmitter.py lines 96-105):
the fixed lookup table from status to numeric signal strength. The dict
default 0 is unreachable because ConnStatus has exactly the five keys. -/
def getSignalStrength : ConnStatus → ℚ
  | .excellent => 95
  | .good => 75
  | .fair => 50
  | .poor => 25
  | .noSignal => 0

/-- Python module constant UPDATE_INTERVAL = 0.1 (transmitter.py line 10). -/
def UPDATE_INTERVAL : ℚ := 1 / 10

/-- The mutable simulation state of DroneDataGenerator (transmitter.py
lines 13-33). -/
structure GenState where
  battery_voltage : ℚ
  temperature : ℚ
  altitude : ℚ
  latitude : ℚ
  longitude : ℚ
  roll : ℚ
  pitch : ℚ
  yaw : ℚ
  connection_health : ConnStatus
  time_offset : ℚ
deriving DecidableEq, Repr

/-- The nondeterministic inputs consumed by one generate_data call: the
uniform noise draws, the values math.sin and math.cos return at the phases
used this tick (kept uninterpreted so the model stays exact), the
random.random() draw and random.choices pick for the connection state, and
the datetime.now() wall-clock reading. -/
structure TickEnv where
  vNoise : ℚ
  tempNoise : ℚ
  rollNoise : ℚ
  pitchNoise : ℚ
  yawNoise : ℚ
  altNoise : ℚ
  sin_t5 : ℚ
  cos_t7 : ℚ
  sin_t10 : ℚ
  sin_t15 : ℚ
  sin_t20 : ℚ
  cos_t20 : ℚ
  connDraw : ℚ
  connChoice : ConnStatus
  now : ℚ
deriving DecidableEq, Repr

/-- The dictionary returned by generate_data (transmitter.py lines 70-94):
every numeric entry is a rounded copy of the corresponding state value. -/
structure TxSample where
  timestamp : ℚ
  voltage : ℚ
  percentage : ℚ
  temperature : ℚ
  altitude : ℚ
  roll : ℚ
  pitch : ℚ
  yaw : ℚ
  latitude : ℚ
  longitude : ℚ
  gps_altitude : ℚ
  status : ConnStatus
  signal_strength : ℚ
deriving DecidableEq, Repr

/-- DroneDataGenerator.generate_data (transmitter.py lines 35-94), in source
order: advance the time offset, drain and clamp the battery, drift the
temperature, update the IMU angles (yaw through Python mod 360), oscillate
the altitude, drift the GPS circle, resample the connection state with
probability 0.01, and finally build the returned dictionary of values
rounded for display. -/
def generateData (s : GenState) (e : TickEnv) : GenState × TxSample :=
  let time_offset := s.time_offset + UPDATE_INTERVAL
  let battery_drain_rate : ℚ := 1 / 1000
  let bv1 := s.battery_voltage - battery_drain_rate
  let bv2 := bv1 + e.vNoise
  let battery_voltage := max 8 (min 12 bv2)
  let temperature := s.temperature + e.tempNoise
  let _movement_factor := 2 * e.sin_t10
  let roll := 15 * e.sin_t5 + e.rollNoise
  let pitch := 10 * e.cos_t7 + e.pitchNoise
  let yaw := pymod (s.yaw + 1 + e.yawNoise) 360
  let altitude := 100 + 10 * e.sin_t15 + e.altNoise
  let circle_radius : ℚ := 1 / 10000
  let latitude := s.latitude + circle_radius * e.sin_t20
  let longitude := s.longitude + circle_radius * e.cos_t20
  let connection_health :=
    if e.connDraw < 1 / 100 then e.connChoice else s.connection_health
  ({ battery_voltage := battery_voltage
     temperature := temperature
     altitude := altitude
     latitude := latitude
     longitude := longitude
     roll := roll
     pitch := pitch
     yaw := yaw
     connection_health := connection_health
     time_offset := time_offset },
   { timestamp := e.now
     voltage := pyRound 2 battery_voltage
     percentage := pyRound 1 ((battery_voltage - 8) / 4 * 100)
     temperature := pyRound 1 temperature
     altitude := pyRound 1 altitude
     roll := pyRound 2 roll
     pitch := pyRound 2 pitch
     yaw := pyRound 2 yaw
     latitude := pyRound 6 latitude
     longitude := pyRound 6 longitude
     gps_altitude := pyRound 1 altitude
     status := connection_health
     signal_strength := getSignalStrength connection_health })

/-! The websocket client retry loop of dashboard.py (lines 72-83). -/

/-- An exception escaping the try block of one outer-loop iteration. -/
inductive PyExn
  | connectError
  | recvError
deriving DecidableEq, Repr

/-- What one iteration of the outer while-True loop observes: either
websockets.connect itself raises, or the connection is established and the
inner receive loop delivers some messages to the queue before an exception
ends it. The inner while-True loop can only exit by raising. -/
inductive ConnAttempt
  | connectFails
  | connectedThenFails (msgs : List Msg) (e : PyExn)

/-- The consumer-side state: the contents of data_queue, the number of
outer-loop iterations completed, and the total seconds spent in the
reconnect sleep. -/
structure ClientState where
  queue : List Msg
  attempts : ℕ
  slept : ℚ
deriving DecidableEq, Repr

/-- The body of the try block (dashboard.py lines 75-80) for one attempt:
enqueue whatever was received before the failure, and report the exception
that ended the attempt. -/
def tryBody (q : List Msg) : ConnAttempt → List Msg × PyExn
  | .connectFails => (q, .connectError)
  | .connectedThenFails msgs e => (q ++ msgs, e)

/-- One iteration of the outer while-True loop (dashboard.py lines 73-83):
run the try body; the except clause catches every Exception, sleeps 5
seconds, and the loop continues. The Except result records whether an
exception escaped the iteration - the handler makes that impossible, so the
iteration always returns ok. -/
def clientIter (st : ClientState) (a : ConnAttempt) : Except PyExn ClientState :=
  let r := tryBody st.queue a
  Except.ok { queue := r.1, attempts := st.attempts + 1, slept := st.slept + 5 }

/-- Running the consumer loop through a finite history of attempts; an
escaped exception would abort the whole run. -/
def clientRun (st : ClientState) : List ConnAttempt → Except PyExn ClientState
  | [] => Except.ok st
  | a :: rest =>
    match clientIter st a with
    | Except.ok st1 => clientRun st1 rest
    | Except.error e => Except.error e

/-! The 3D pose transform of update_orientation_display (dashboard.py
lines 250-330). Angles and coordinates are reals here because the source
works with numpy trigonometry. -/

/-- A 3D point or axis. -/
@[ext] structure Vec3 where
  x : ℝ
  y : ℝ
  z : ℝ

/-- A 3x3 real matrix, row major. -/
@[ext] structure Mat3 where
  m11 : ℝ
  m12 : ℝ
  m13 : ℝ
  m21 : ℝ
  m22 : ℝ
  m23 : ℝ
  m31 : ℝ
  m32 : ℝ
  m33 : ℝ

/-- Matrix product (numpy dot of two 3x3 arrays). -/
def Mat3.mul (A B : Mat3) : Mat3 :=
  { m11 := A.m11 * B.m11 + A.m12 * B.m21 + A.m13 * B.m31
    m12 := A.m11 * B.m12 + A.m12 * B.m22 + A.m13 * B.m32
    m13 := A.m11 * B.m13 + A.m12 * B.m23 + A.m13 * B.m33
    m21 := A.m21 * B.m11 + A.m22 * B.m21 + A.m23 * B.m31
    m22 := A.m21 * B.m12 + A.m22 * B.m22 + A.m23 * B.m32
    m23 := A.m21 * B.m13 + A.m22 * B.m23 + A.m23 * B.m33
    m31 := A.m31 * B.m11 + A.m32 * B.m21 + A.m33 * B.m31
    m32 := A.m31 * B.m12 + A.m32 * B.m22 + A.m33 * B.m32
    m33 := A.m31 * B.m13 + A.m32 * B.m23 + A.m33 * B.m33 }

/-- The identity matrix. -/
def Mat3.idMat : Mat3 :=
  { m11 := 1, m12 := 0, m13 := 0
    m21 := 0, m22 := 1, m23 := 0
    m31 := 0, m32 := 0, m33 := 1 }

/-- Applying a matrix to a point. The source rotates row vectors with
np.dot(points, R.T), which applies R to each point as a column vector. -/
def Mat3.apply (A : Mat3) (v : Vec3) : Vec3 :=
  { x := A.m11 * v.x + A.m12 * v.y + A.m13 * v.z
    y := A.m21 * v.x + A.m22 * v.y + A.m23 * v.z
    z := A.m31 * v.x + A.m32 * v.y + A.m33 * v.z }

/-- The nested helper rotation_matrix(axis, theta) of
update_orientation_display (dashboard.py lines 255-267): normalize the axis,
form the quaternion components a = cos(theta/2), (b, c, d) =
-axis * sin(theta/2), and assemble the Rodrigues rotation matrix. -/
noncomputable def rotation_matrix (axis : Vec3) (θ : ℝ) : Mat3 :=
  let n := Real.sqrt (axis.x * axis.x + axis.y * axis.y + axis.z * axis.z)
  let ux := axis.x / n
  let uy := axis.y / n
  let uz := axis.z / n
  let a := Real.cos (θ / 2)
  let b := -ux * Real.sin (θ / 2)
  let c := -uy * Real.sin (θ / 2)
  let d := -uz * Real.sin (θ / 2)
  { m11 := a * a + b * b - c * c - d * d
    m12 := 2 * (b * c + a * d)
    m13 := 2 * (b * d - a * c)
    m21 := 2 * (b * c - a * d)
    m22 := a * a + c * c - b * b - d * d
    m23 := 2 * (c * d + a * b)
    m31 := 2 * (b * d + a * c)
    m32 := 2 * (c * d - a * b)
    m33 := a * a + d * d - b * b - c * c }

/-- The composed pose matrix of update_orientation_display (dashboard.py
lines 250-273): convert the angles from degrees to radians, build R_z about
[0, 0, 0.75] from yaw, R_y about [0, 0.75, 0] from pitch, R_x about
[0.75, 0, 0] from roll, and compose R = R_z . R_y . R_x. -/
noncomputable def poseMatrix (roll pitch yaw : ℝ) : Mat3 :=
  let r := roll * Real.pi / 180
  let p := pitch * Real.pi / 180
  let y := yaw * Real.pi / 180
  ((rotation_matrix { x := 0, y := 0, z := 0.75 } y).mul
      (rotation_matrix { x := 0, y := 0.75, z := 0 } p)).mul
    (rotation_matrix { x := 0.75, y := 0, z := 0 } r)

/-- The standard rotation about the z axis, written from the words of the
spec for comparison with the matrices the source builds. -/
noncomputable def RzStd (θ : ℝ) : Mat3 :=
  { m11 := Real.cos θ, m12 := -Real.sin θ, m13 := 0
    m21 := Real.sin θ, m22 := Real.cos θ, m23 := 0
    m31 := 0, m32 := 0, m33 := 1 }

/-- The standard rotation about the y axis, from the words of the spec. -/
noncomputable def RyStd (θ : ℝ) : Mat3 :=
  { m11 := Real.cos θ, m12 := 0, m13 := Real.sin θ
    m21 := 0, m22 := 1, m23 := 0
    m31 := -Real.sin θ, m32 := 0, m33 := Real.cos θ }

/-- The standard rotation about the x axis, from the words of the spec. -/
noncomputable def RxStd (θ : ℝ) : Mat3 :=
  { m11 := 1, m12 := 0, m13 := 0
    m21 := 0, m22 := Real.cos θ, m23 := -Real.sin θ
    m31 := 0, m32 := Real.sin θ, m33 := Real.cos θ }

/-- Geometry constant drone_size (dashboard.py line 277). -/
noncomputable def drone_size : ℝ := 0.8

/-- Geometry constant body_size (dashboard.py line 281). -/
noncomputable def body_size : ℝ := drone_size * 0.3

/-- Geometry constant arm_length (dashboard.py line 294). -/
noncomputable def arm_length : ℝ := drone_size

/-- Geometry constant thickness (dashboard.py line 295). -/
noncomputable def thickness : ℝ := 0.05

/-- The eight body vertices (dashboard.py lines 282-291). -/
noncomputable def body_points : List Vec3 :=
  [ { x := body_size, y := body_size, z := 0.05 }
  , { x := body_size, y := -body_size, z := 0.05 }
  , { x := -body_size, y := -body_size, z := 0.05 }
  , { x := -body_size, y := body_size, z := 0.05 }
  , { x := body_size, y := body_size, z := -0.05 }
  , { x := body_size, y := -body_size, z := -0.05 }
  , { x := -body_size, y := -body_size, z := -0.05 }
  , { x := -body_size, y := body_size, z := -0.05 } ]

/-- The four front-arm vertices (dashboard.py lines 298-301); index 2 is the
front-arm tip [0, arm_length, thickness]. -/
noncomputable def arm_front : List Vec3 :=
  [ { x := 0, y := 0, z := thickness }
  , { x := 0, y := 0, z := -thickness }
  , { x := 0, y := arm_length, z := thickness }
  , { x := 0, y := arm_length, z := -thickness } ]

/-- The front-arm tip vertex. -/
noncomputable def frontArmTip : Vec3 := { x := 0, y := arm_length, z := thickness }

/-! Concrete inputs used to evaluate the model. -/

/-- A family of well-formed samples indexed by a rational tag. -/
def wSample (i : ℚ) : Sample :=
  { timestamp := i
    battery_voltage := 10 + i
    temperature := 20 + i
    altitude := 100 + i
    roll := i
    pitch := 2 * i
    yaw := 3 * i
    latitude := 37 + i
    longitude := -122 + i
    signal_strength := 95 }

/-- Three well-formed samples. -/
def wMsgs : List Sample := [wSample 1, wSample 2, wSample 3]

/-- A malformed incoming message: timestamp and battery parse fine but the
sensors entry is missing, so data[...] raises midway through add_data. -/
def badMsg : Msg :=
  { timestamp := some 1
    battery_voltage := some 11
    temperature := none
    altitude := some 100
    roll := some 0
    pitch := some 0
    yaw := some 0
    latitude := some 37
    longitude := some (-122)
    signal_strength := some 95 }

/-- A generator state whose yaw is close below 360. -/
def yawCexState : GenState :=
  { battery_voltage := 12
    temperature := 25
    altitude := 100
    latitude := 37
    longitude := -122
    roll := 0
    pitch := 0
    yaw := 358999 / 1000
    connection_health := ConnStatus.excellent
    time_offset := 0 }

/-- A tick environment with every draw at zero (all inside the stated
uniform ranges) and no connection resample. -/
def zeroEnv : TickEnv :=
  { vNoise := 0
    tempNoise := 0
    rollNoise := 0
    pitchNoise := 0
    yawNoise := 0
    altNoise := 0
    sin_t5 := 0
    cos_t7 := 0
    sin_t10 := 0
    sin_t15 := 0
    sin_t20 := 0
    cos_t20 := 0
    connDraw := 1
    connChoice := ConnStatus.excellent
    now := 0 }

/-- The equal-length invariant over the ten parallel series. -/
def allEqualLengths (st : DataStore) : Prop :=
  st.battery_voltage.length = st.timestamps.length ∧
  st.temperature.length = st.timestamps.length ∧
  st.altitude.length = st.timestamps.length ∧
  st.roll.length = st.timestamps.length ∧
  st.pitch.length = st.timestamps.length ∧
  st.yaw.length = st.timestamps.length ∧
  st.latitude.length = st.timestamps.length ∧
  st.longitude.length = st.timestamps.length ∧
  st.connection_strength.length = st.timestamps.length

instance allEqualLengthsDec (st : DataStore) : Decidable (allEqualLengths st) := by
  unfold allEqualLengths
  infer_instance

/-- The conclusion of the sliding-window claim for a capacity-N store fed
with the samples msgs, of which the last N are retained: every series has
length min (total adds) N, the oldest retained element of every series is
the field of msgs[k] (the (k+1)-th inserted sample), and the latest pointer
holds the last sample. -/
def slidingWindowSpec (N : ℤ) (k : ℕ) (msgs : List Sample) : Prop :=
  (((runStore N msgs).timestamps.length : ℤ) = min (msgs.length : ℤ) N ∧
   ((runStore N msgs).battery_voltage.length : ℤ) = min (msgs.length : ℤ) N ∧
   ((runStore N msgs).temperature.length : ℤ) = min (msgs.length : ℤ) N ∧
   ((runStore N msgs).altitude.length : ℤ) = min (msgs.length : ℤ) N ∧
   ((runStore N msgs).roll.length : ℤ) = min (msgs.length : ℤ) N ∧
   ((runStore N msgs).pitch.length : ℤ) = min (msgs.length : ℤ) N ∧
   ((runStore N msgs).yaw.length : ℤ) = min (msgs.length : ℤ) N ∧
   ((runStore N msgs).latitude.length : ℤ) = min (msgs.length : ℤ) N ∧
   ((runStore N msgs).longitude.length : ℤ) = min (msgs.length : ℤ) N ∧
   ((runStore N msgs).connection_strength.length : ℤ) = min (msgs.length : ℤ) N) ∧
  ((runStore N msgs).timestamps.head? = (msgs[k]?).map Sample.timestamp ∧
   (runStore N msgs).battery_voltage.head? = (msgs[k]?).map Sample.battery_voltage ∧
   (runStore N msgs).temperature.head? = (msgs[k]?).map Sample.temperature ∧
   (runStore N msgs).altitude.head? = (msgs[k]?).map Sample.altitude ∧
   (runStore N msgs).roll.head? = (msgs[k]?).map Sample.roll ∧
   (runStore N msgs).pitch.head? = (msgs[k]?).map Sample.pitch ∧
   (runStore N msgs).yaw.head? = (msgs[k]?).map Sample.yaw ∧
   (runStore N msgs).latitude.head? = (msgs[k]?).map Sample.latitude ∧
   (runStore N msgs).longitude.head? = (msgs[k]?).map Sample.longitude ∧
   (runStore N msgs).connection_strength.head? = (msgs[k]?).map Sample.signal_strength) ∧
  (runStore N msgs).latest_data = (msgs.getLast?).map Sample.toMsg

/-! Derived notions and helper lemmas. -/

/-- The sliding window of the last N elements the trim step maintains:
apply the slice [-N:] exactly when the list is longer than N, as
DataStore.add_data does. -/
def lastN (N : ℤ) (l : List α) : List α :=
  if N < (l.length : ℤ) then pySliceFrom (-N) l else l

lemma pySliceFrom_neg_of_pos (N : ℤ) (hN : 0 < N) (l : List α) :
    pySliceFrom (-N) l = l.drop (((l.length : ℤ) - N).toNat) := by
  unfold pySliceFrom
  rw [if_pos (by omega)]
  have he : (l.length : ℤ) + -N = (l.length : ℤ) - N := by ring
  rw [he]

lemma pySliceFrom_length_congr (s : ℤ) (l₁ l₂ : List α)
    (h : l₁.length = l₂.length) :
    (pySliceFrom s l₁).length = (pySliceFrom s l₂).length := by
  unfold pySliceFrom
  split
  · simp [List.length_drop, h]
  · simp [List.length_drop, h]

lemma pySliceFrom_zero (l : List α) : pySliceFrom 0 l = l := by
  unfold pySliceFrom
  simp

lemma lastN_length (N : ℤ) (hN : 0 < N) (l : List α) :
    ((lastN N l).length : ℤ) = min (l.length : ℤ) N := by
  unfold lastN
  by_cases h : N < (l.length : ℤ)
  · rw [if_pos h, pySliceFrom_neg_of_pos N hN, List.length_drop]
    have hk : ((((l.length : ℤ) - N).toNat : ℤ)) = (l.length : ℤ) - N := by omega
    omega
  · rw [if_neg h]
    omega

lemma lastN_append_lastN (N : ℤ) (hN : 0 < N) (l : List α) (x : α) :
    lastN N (lastN N l ++ [x]) = lastN N (l ++ [x]) := by
  unfold lastN
  by_cases h : N < (l.length : ℤ)
  · rw [if_pos h, pySliceFrom_neg_of_pos N hN]
    obtain ⟨k, hk⟩ : ∃ k : ℕ, (k : ℤ) = (l.length : ℤ) - N :=
      ⟨((l.length : ℤ) - N).toNat, by omega⟩
    have hksubst : (((l.length : ℤ) - N).toNat) = k := by omega
    rw [hksubst]
    have hkle : k ≤ l.length := by omega
    have hdl : (l.drop k).length = l.length - k := List.length_drop k l
    have hdl2 : ((l.drop k).length : ℤ) = (l.length : ℤ) - k := by
      rw [hdl]
      omega
    have hlen1 : ((l.drop k ++ [x]).length : ℤ) = (l.length : ℤ) - k + 1 := by
      simp only [List.length_append, List.length_singleton, hdl]
      omega
    have hlen2 : ((l ++ [x]).length : ℤ) = (l.length : ℤ) + 1 := by
      simp only [List.length_append, List.length_singleton]
      omega
    have h1 : N < ((l.drop k ++ [x]).length : ℤ) := by omega
    have h2 : N < ((l ++ [x]).length : ℤ) := by omega
    rw [if_pos h1, if_pos h2, pySliceFrom_neg_of_pos N hN, pySliceFrom_neg_of_pos N hN]
    have hk1 : (((l.drop k ++ [x]).length : ℤ) - N).toNat = 1 := by omega
    have hk2 : (((l ++ [x]).length : ℤ) - N).toNat = k + 1 := by omega
    rw [hk1, hk2, List.drop_append_of_le_length (by omega),
      List.drop_append_of_le_length (by omega), List.drop_drop]
  · rw [if_neg h]

lemma le_roundHalfEven (q : ℚ) : q - 1 / 2 ≤ (roundHalfEven q : ℚ) := by
  have h1 : ((⌊q⌋ : ℤ) : ℚ) ≤ q := Int.floor_le q
  have h2 : q < (⌊q⌋ : ℚ) + 1 := Int.lt_floor_add_one q
  unfold roundHalfEven
  split
  · linarith
  · split
    · push_cast
      linarith
    · split
      · linarith
      · push_cast
        linarith

lemma roundHalfEven_le (q : ℚ) : (roundHalfEven q : ℚ) ≤ q + 1 / 2 := by
  have h1 : ((⌊q⌋ : ℤ) : ℚ) ≤ q := Int.floor_le q
  have h2 : q < (⌊q⌋ : ℚ) + 1 := Int.lt_floor_add_one q
  unfold roundHalfEven
  split
  case isTrue h => linarith
  case isFalse h =>
    split
    case isTrue h3 =>
      push_cast
      linarith
    case isFalse h3 =>
      split
      · linarith
      · push_cast
        linarith

lemma pyRound_nonneg (n : ℕ) (q : ℚ) (h : 0 ≤ q) : 0 ≤ pyRound n q := by
  unfold pyRound
  have hb : (0 : ℚ) < 10 ^ n := by positivity
  apply div_nonneg _ (le_of_lt hb)
  have h1 := le_roundHalfEven (q * 10 ^ n)
  have h2 : (0 : ℚ) ≤ q * 10 ^ n := by positivity
  have h3 : (-1 : ℤ) < roundHalfEven (q * 10 ^ n) := by
    have : (-1 : ℚ) < (roundHalfEven (q * 10 ^ n) : ℚ) := by linarith
    exact_mod_cast this
  have h4 : (0 : ℤ) ≤ roundHalfEven (q * 10 ^ n) := by omega
  exact_mod_cast h4

lemma pyRound_le (n : ℕ) (q : ℚ) (B : ℤ) (h : q ≤ (B : ℚ)) :
    pyRound n q ≤ (B : ℚ) := by
  unfold pyRound
  have hb : (0 : ℚ) < 10 ^ n := by positivity
  rw [div_le_iff₀ hb]
  have h1 := roundHalfEven_le (q * 10 ^ n)
  have h2 : q * 10 ^ n ≤ (B : ℚ) * 10 ^ n :=
    mul_le_mul_of_nonneg_right h (le_of_lt hb)
  have h3 : roundHalfEven (q * 10 ^ n) ≤ B * 10 ^ n := by
    have hc : (roundHalfEven (q * 10 ^ n) : ℚ) < ((B * 10 ^ n + 1 : ℤ) : ℚ) := by
      push_cast
      linarith
    have hc2 : roundHalfEven (q * 10 ^ n) < B * 10 ^ n + 1 := by exact_mod_cast hc
    omega
  calc (roundHalfEven (q * 10 ^ n) : ℚ) ≤ ((B * 10 ^ n : ℤ) : ℚ) := by exact_mod_cast h3
    _ = (B : ℚ) * 10 ^ n := by push_cast; ring

lemma pymod_nonneg (a b : ℚ) (hb : 0 < b) : 0 ≤ pymod a b := by
  unfold pymod
  have h := Int.floor_le (a / b)
  have hm : b * ((⌊a / b⌋ : ℤ) : ℚ) ≤ b * (a / b) :=
    mul_le_mul_of_nonneg_left h (le_of_lt hb)
  have hba : b * (a / b) = a := by
    field_simp
  linarith

lemma pymod_lt (a b : ℚ) (hb : 0 < b) : pymod a b < b := by
  unfold pymod
  have h := Int.lt_floor_add_one (a / b)
  have hm : b * (a / b) < b * (((⌊a / b⌋ : ℤ) : ℚ) + 1) :=
    (mul_lt_mul_left hb).mpr h
  have hba : b * (a / b) = a := by
    field_simp
  rw [mul_add, mul_one] at hm
  linarith

lemma addData_toMsg (st : DataStore) (s : Sample) :
    st.addData s.toMsg =
      (DataStore.trim
        { st with
          latest_data := some s.toMsg
          timestamps := st.timestamps ++ [s.timestamp]
          battery_voltage := st.battery_voltage ++ [s.battery_voltage]
          temperature := st.temperature ++ [s.temperature]
          altitude := st.altitude ++ [s.altitude]
          roll := st.roll ++ [s.roll]
          pitch := st.pitch ++ [s.pitch]
          yaw := st.yaw ++ [s.yaw]
          latitude := st.latitude ++ [s.latitude]
          longitude := st.longitude ++ [s.longitude]
          connection_strength := st.connection_strength ++ [s.signal_strength] },
       true) := rfl

/-- The run invariant: after feeding the samples of prev to a fresh store of
capacity N, every series is the N-window of the corresponding projection of
prev and the latest pointer holds the last sample. -/
def canonical (N : ℤ) (prev : List Sample) (st : DataStore) : Prop :=
  st.max_points = N ∧
  st.timestamps = lastN N (prev.map Sample.timestamp) ∧
  st.battery_voltage = lastN N (prev.map Sample.battery_voltage) ∧
  st.temperature = lastN N (prev.map Sample.temperature) ∧
  st.altitude = lastN N (prev.map Sample.altitude) ∧
  st.roll = lastN N (prev.map Sample.roll) ∧
  st.pitch = lastN N (prev.map Sample.pitch) ∧
  st.yaw = lastN N (prev.map Sample.yaw) ∧
  st.latitude = lastN N (prev.map Sample.latitude) ∧
  st.longitude = lastN N (prev.map Sample.longitude) ∧
  st.connection_strength = lastN N (prev.map Sample.signal_strength) ∧
  st.latest_data = (prev.getLast?).map Sample.toMsg

lemma lastN_nil (N : ℤ) (hN : 0 < N) : lastN N ([] : List ℚ) = [] := by
  unfold lastN
  rw [if_neg (by simp; omega)]

lemma canonical_init (N : ℤ) (hN : 0 < N) : canonical N [] (DataStore.init N) := by
  unfold canonical DataStore.init
  simp [lastN_nil N hN]

lemma window_length_eq (N : ℤ) (hN : 0 < N) (prev : List Sample)
    (f g : Sample → ℚ) (xf xg : ℚ) :
    ((lastN N (prev.map f) ++ [xf]).length : ℤ) =
      ((lastN N (prev.map g) ++ [xg]).length : ℤ) := by
  simp only [List.length_append, List.length_singleton]
  have a := lastN_length N hN (prev.map f)
  have b := lastN_length N hN (prev.map g)
  simp only [List.length_map] at a b
  omega

lemma series_step_trim (N : ℤ) (hN : 0 < N) (prev : List Sample) (s : Sample)
    (f : Sample → ℚ)
    (hcond : N < ((lastN N (prev.map Sample.timestamp) ++ [s.timestamp]).length : ℤ)) :
    pySliceFrom (-N) (lastN N (prev.map f) ++ [f s]) = lastN N ((prev ++ [s]).map f) := by
  have hc : N < ((lastN N (prev.map f) ++ [f s]).length : ℤ) := by
    have := window_length_eq N hN prev f Sample.timestamp (f s) s.timestamp
    omega
  have hEq : lastN N (lastN N (prev.map f) ++ [f s]) =
      if N < ((lastN N (prev.map f) ++ [f s]).length : ℤ) then
        pySliceFrom (-N) (lastN N (prev.map f) ++ [f s])
      else lastN N (prev.map f) ++ [f s] := rfl
  rw [if_pos hc] at hEq
  rw [← hEq, lastN_append_lastN N hN, List.map_append]
  simp

lemma series_step_notrim (N : ℤ) (hN : 0 < N) (prev : List Sample) (s : Sample)
    (f : Sample → ℚ)
    (hcond : ¬ N < ((lastN N (prev.map Sample.timestamp) ++ [s.timestamp]).length : ℤ)) :
    lastN N (prev.map f) ++ [f s] = lastN N ((prev ++ [s]).map f) := by
  have hc : ¬ N < ((lastN N (prev.map f) ++ [f s]).length : ℤ) := by
    have := window_length_eq N hN prev f Sample.timestamp (f s) s.timestamp
    omega
  have hEq : lastN N (lastN N (prev.map f) ++ [f s]) =
      if N < ((lastN N (prev.map f) ++ [f s]).length : ℤ) then
        pySliceFrom (-N) (lastN N (prev.map f) ++ [f s])
      else lastN N (prev.map f) ++ [f s] := rfl
  rw [if_neg hc] at hEq
  rw [← hEq, lastN_append_lastN N hN, List.map_append]
  simp

lemma canonical_step (N : ℤ) (hN : 0 < N) (prev : List Sample) (st : DataStore)
    (s : Sample) (hc : canonical N prev st) :
    canonical N (prev ++ [s]) (st.addData s.toMsg).1 := by
  obtain ⟨mp, ts, bv, te, al, ro, pi, ya, la, lo, cs, ld⟩ := st
  obtain ⟨hm, ht, hbv, hte, hal, hr, hp, hy, hla, hlo, hcs, hld⟩ := hc
  dsimp only at hm ht hbv hte hal hr hp hy hla hlo hcs hld
  subst hm ht hbv hte hal hr hp hy hla hlo hcs hld
  rw [addData_toMsg]
  show canonical mp (prev ++ [s]) (DataStore.trim _)
  unfold DataStore.trim
  dsimp only
  by_cases hcond : mp < ((lastN mp (prev.map Sample.timestamp) ++ [s.timestamp]).length : ℤ)
  · rw [if_pos hcond]
    refine ⟨rfl, ?_, ?_, ?_, ?_, ?_, ?_, ?_, ?_, ?_, ?_, ?_⟩
    · exact series_step_trim mp hN prev s Sample.timestamp hcond
    · exact series_step_trim mp hN prev s Sample.battery_voltage hcond
    · exact series_step_trim mp hN prev s Sample.temperature hcond
    · exact series_step_trim mp hN prev s Sample.altitude hcond
    · exact series_step_trim mp hN prev s Sample.roll hcond
    · exact series_step_trim mp hN prev s Sample.pitch hcond
    · exact series_step_trim mp hN prev s Sample.yaw hcond
    · exact series_step_trim mp hN prev s Sample.latitude hcond
    · exact series_step_trim mp hN prev s Sample.longitude hcond
    · exact series_step_trim mp hN prev s Sample.signal_strength hcond
    · rw [List.getLast?_concat]
      rfl
  · rw [if_neg hcond]
    refine ⟨rfl, ?_, ?_, ?_, ?_, ?_, ?_, ?_, ?_, ?_, ?_, ?_⟩
    · exact series_step_notrim mp hN prev s Sample.timestamp hcond
    · exact series_step_notrim mp hN prev s Sample.battery_voltage hcond
    · exact series_step_notrim mp hN prev s Sample.temperature hcond
    · exact series_step_notrim mp hN prev s Sample.altitude hcond
    · exact series_step_notrim mp hN prev s Sample.roll hcond
    · exact series_step_notrim mp hN prev s Sample.pitch hcond
    · exact series_step_notrim mp hN prev s Sample.yaw hcond
    · exact series_step_notrim mp hN prev s Sample.latitude hcond
    · exact series_step_notrim mp hN prev s Sample.longitude hcond
    · exact series_step_notrim mp hN prev s Sample.signal_strength hcond
    · rw [List.getLast?_concat]
      rfl

lemma canonical_run (N : ℤ) (hN : 0 < N) :
    ∀ (msgs prev : List Sample) (st : DataStore), canonical N prev st →
      canonical N (prev ++ msgs) (addAll st (msgs.map Sample.toMsg)) := by
  intro msgs
  induction msgs with
  | nil =>
    intro prev st h
    simpa [addAll] using h
  | cons m ms ih =>
    intro prev st h
    have hstep := canonical_step N hN prev st m h
    have := ih (prev ++ [m]) (st.addData m.toMsg).1 hstep
    simpa [addAll, List.foldl_cons, List.append_assoc] using this

lemma canonical_runStore (N : ℤ) (hN : 0 < N) (msgs : List Sample) :
    canonical N msgs (runStore N msgs) := by
  have := canonical_run N hN msgs [] (DataStore.init N) (canonical_init N hN)
  simpa [runStore] using this

lemma rotation_matrix_z (θ : ℝ) :
    rotation_matrix { x := 0, y := 0, z := 0.75 } θ = RzStd θ := by
  have hn : Real.sqrt ((0 : ℝ) * 0 + 0 * 0 + 0.75 * 0.75) = 0.75 := by
    rw [show (0 : ℝ) * 0 + 0 * 0 + 0.75 * 0.75 = 0.75 ^ 2 by ring]
    exact Real.sqrt_sq (by norm_num)
  have hcos : Real.cos θ = 2 * Real.cos (θ / 2) ^ 2 - 1 := by
    have h := Real.cos_two_mul (θ / 2)
    rw [show 2 * (θ / 2) = θ by ring] at h
    linarith
  have hsin : Real.sin θ = 2 * Real.sin (θ / 2) * Real.cos (θ / 2) := by
    have h := Real.sin_two_mul (θ / 2)
    rw [show 2 * (θ / 2) = θ by ring] at h
    linarith
  have hss := Real.sin_sq_add_cos_sq (θ / 2)
  unfold rotation_matrix RzStd
  dsimp only
  rw [hn]
  ext <;> field_simp <;> nlinarith [hss, hcos, hsin]

lemma rotation_matrix_y (θ : ℝ) :
    rotation_matrix { x := 0, y := 0.75, z := 0 } θ = RyStd θ := by
  have hn : Real.sqrt ((0 : ℝ) * 0 + 0.75 * 0.75 + 0 * 0) = 0.75 := by
    rw [show (0 : ℝ) * 0 + 0.75 * 0.75 + 0 * 0 = 0.75 ^ 2 by ring]
    exact Real.sqrt_sq (by norm_num)
  have hcos : Real.cos θ = 2 * Real.cos (θ / 2) ^ 2 - 1 := by
    have h := Real.cos_two_mul (θ / 2)
    rw [show 2 * (θ / 2) = θ by ring] at h
    linarith
  have hsin : Real.sin θ = 2 * Real.sin (θ / 2) * Real.cos (θ / 2) := by
    have h := Real.sin_two_mul (θ / 2)
    rw [show 2 * (θ / 2) = θ by ring] at h
    linarith
  have hss := Real.sin_sq_add_cos_sq (θ / 2)
  unfold rotation_matrix RyStd
  dsimp only
  rw [hn]
  ext <;> field_simp <;> nlinarith [hss, hcos, hsin]

lemma rotation_matrix_x (θ : ℝ) :
    rotation_matrix { x := 0.75, y := 0, z := 0 } θ = RxStd θ := by
  have hn : Real.sqrt ((0.75 : ℝ) * 0.75 + 0 * 0 + 0 * 0) = 0.75 := by
    rw [show (0.75 : ℝ) * 0.75 + 0 * 0 + 0 * 0 = 0.75 ^ 2 by ring]
    exact Real.sqrt_sq (by norm_num)
  have hcos : Real.cos θ = 2 * Real.cos (θ / 2) ^ 2 - 1 := by
    have h := Real.cos_two_mul (θ / 2)
    rw [show 2 * (θ / 2) = θ by ring] at h
    linarith
  have hsin : Real.sin θ = 2 * Real.sin (θ / 2) * Real.cos (θ / 2) := by
    have h := Real.sin_two_mul (θ / 2)
    rw [show 2 * (θ / 2) = θ by ring] at h
    linarith
  have hss := Real.sin_sq_add_cos_sq (θ / 2)
  unfold rotation_matrix RxStd
  dsimp only
  rw [hn]
  ext <;> field_simp <;> nlinarith [hss, hcos, hsin]

lemma pose_eq_std (r p y : ℝ) :
    poseMatrix r p y =
      ((RzStd (y * Real.pi / 180)).mul (RyStd (p * Real.pi / 180))).mul
        (RxStd (r * Real.pi / 180)) := by
  unfold poseMatrix
  dsimp only
  rw [rotation_matrix_z, rotation_matrix_y, rotation_matrix_x]

lemma RzStd_zero : RzStd 0 = Mat3.idMat := by
  unfold RzStd Mat3.idMat
  ext <;> simp

lemma RyStd_zero : RyStd 0 = Mat3.idMat := by
  unfold RyStd Mat3.idMat
  ext <;> simp

lemma RxStd_zero : RxStd 0 = Mat3.idMat := by
  unfold RxStd Mat3.idMat
  ext <;> simp

lemma Mat3.mul_idMat (A : Mat3) : A.mul Mat3.idMat = A := by
  unfold Mat3.mul Mat3.idMat
  ext <;> dsimp only <;> ring

lemma Mat3.idMat_mul (A : Mat3) : Mat3.idMat.mul A = A := by
  unfold Mat3.mul Mat3.idMat
  ext <;> dsimp only <;> ring

lemma Mat3.apply_idMat (v : Vec3) : Mat3.idMat.apply v = v := by
  unfold Mat3.apply Mat3.idMat
  ext <;> dsimp only <;> ring

lemma pose_zero : poseMatrix 0 0 0 = Mat3.idMat := by
  rw [pose_eq_std]
  rw [show (0 : ℝ) * Real.pi / 180 = 0 by ring]
  rw [RzStd_zero, RyStd_zero, RxStd_zero, Mat3.mul_idMat, Mat3.mul_idMat]

lemma pose_yaw90 : poseMatrix 0 0 90 = RzStd (Real.pi / 2) := by
  rw [pose_eq_std]
  rw [show (0 : ℝ) * Real.pi / 180 = 0 by ring]
  rw [show (90 : ℝ) * Real.pi / 180 = Real.pi / 2 by ring]
  rw [RyStd_zero, RxStd_zero, Mat3.mul_idMat, Mat3.mul_idMat]

lemma RzStd_pi_div_two : RzStd (Real.pi / 2) =
    { m11 := 0, m12 := -1, m13 := 0
      m21 := 1, m22 := 0, m23 := 0
      m31 := 0, m32 := 0, m33 := 1 } := by
  unfold RzStd
  ext <;> simp [Real.cos_pi_div_two, Real.sin_pi_div_two]

lemma lastN_head (N : ℤ) (hN : 0 < N) (k : ℕ) (l : List ℚ)
    (hl : (l.length : ℤ) = N + k) :
    (lastN N l).head? = l[k]? := by
  unfold lastN
  by_cases h : N < (l.length : ℤ)
  · rw [if_pos h, pySliceFrom_neg_of_pos N hN]
    have hk : ((l.length : ℤ) - N).toNat = k := by omega
    rw [hk]
    exact List.head?_drop l k
  · rw [if_neg h]
    have hk : k = 0 := by omega
    subst hk
    simpa using List.head?_drop l 0

lemma addAll_nil (st : DataStore) : addAll st [] = st := rfl

lemma addAll_cons (st : DataStore) (m : Msg) (rest : List Msg) :
    addAll st (m :: rest) = addAll (st.addData m).1 rest := rfl

lemma addData_toMsg_zero (st : DataStore) (s : Sample) (h : st.max_points = 0) :
    (st.addData s.toMsg).1 =
      { st with
        latest_data := some s.toMsg
        timestamps := st.timestamps ++ [s.timestamp]
        battery_voltage := st.battery_voltage ++ [s.battery_voltage]
        temperature := st.temperature ++ [s.temperature]
        altitude := st.altitude ++ [s.altitude]
        roll := st.roll ++ [s.roll]
        pitch := st.pitch ++ [s.pitch]
        yaw := st.yaw ++ [s.yaw]
        latitude := st.latitude ++ [s.latitude]
        longitude := st.longitude ++ [s.longitude]
        connection_strength := st.connection_strength ++ [s.signal_strength] } := by
  rw [addData_toMsg]
  show DataStore.trim _ = _
  unfold DataStore.trim
  dsimp only
  rw [if_pos (show st.max_points < (((st.timestamps ++ [s.timestamp]).length : ℕ) : ℤ) by
    simp only [h, List.length_append, List.length_singleton]
    push_cast
    omega)]
  simp [h, pySliceFrom_zero]

lemma addAll_zero_lengths (msgs : List Sample) :
    ∀ st : DataStore, st.max_points = 0 →
      (addAll st (msgs.map Sample.toMsg)).max_points = 0 ∧
      (addAll st (msgs.map Sample.toMsg)).timestamps.length =
        st.timestamps.length + msgs.length ∧
      (addAll st (msgs.map Sample.toMsg)).battery_voltage.length =
        st.battery_voltage.length + msgs.length ∧
      (addAll st (msgs.map Sample.toMsg)).temperature.length =
        st.temperature.length + msgs.length ∧
      (addAll st (msgs.map Sample.toMsg)).altitude.length =
        st.altitude.length + msgs.length ∧
      (addAll st (msgs.map Sample.toMsg)).roll.length =
        st.roll.length + msgs.length ∧
      (addAll st (msgs.map Sample.toMsg)).pitch.length =
        st.pitch.length + msgs.length ∧
      (addAll st (msgs.map Sample.toMsg)).yaw.length =
        st.yaw.length + msgs.length ∧
      (addAll st (msgs.map Sample.toMsg)).latitude.length =
        st.latitude.length + msgs.length ∧
      (addAll st (msgs.map Sample.toMsg)).longitude.length =
        st.longitude.length + msgs.length ∧
      (addAll st (msgs.map Sample.toMsg)).connection_strength.length =
        st.connection_strength.length + msgs.length := by
  induction msgs with
  | nil =>
    intro st h
    simp [addAll_nil, h]
  | cons m ms ih =>
    intro st h
    have hstep := addData_toMsg_zero st m h
    have hnext : (st.addData m.toMsg).1.max_points = 0 := by
      rw [hstep]
      exact h
    obtain ⟨hmp, hts, hbv, hte, hal, hr, hp, hy, hla, hlo, hcs⟩ :=
      ih (st.addData m.toMsg).1 hnext
    rw [List.map_cons, addAll_cons]
    refine ⟨hmp, ?_, ?_, ?_, ?_, ?_, ?_, ?_, ?_, ?_, ?_⟩ <;>
      simp_all [List.length_append] <;> omega

/-! Claim theorems. -/

/-- C1: for every capacity-N store (N > 0) and every sequence of N + k adds
with k > 0, after all adds every parallel series has length
min (total adds) N, the oldest element of every series is the field of the
(k+1)-th inserted sample, and the latest pointer equals the last sample
added. -/
theorem store_sliding_window (N : ℤ) (k : ℕ) (msgs : List Sample)
    (hN : 0 < N) (_hkpos : 0 < k) (hlen : (msgs.length : ℤ) = N + k) :
    slidingWindowSpec N k msgs := by
  obtain ⟨hm, ht, hbv, hte, hal, hr, hp, hy, hla, hlo, hcs, hld⟩ :=
    canonical_runStore N hN msgs
  have hL : ∀ f : Sample → ℚ,
      ((lastN N (msgs.map f)).length : ℤ) = min (msgs.length : ℤ) N := by
    intro f
    rw [lastN_length N hN, List.length_map]
  have hH : ∀ f : Sample → ℚ,
      (lastN N (msgs.map f)).head? = (msgs[k]?).map f := by
    intro f
    rw [lastN_head N hN k _ (by rw [List.length_map]; exact hlen)]
    exact List.getElem?_map f msgs k
  unfold slidingWindowSpec
  refine ⟨⟨?_, ?_, ?_, ?_, ?_, ?_, ?_, ?_, ?_, ?_⟩,
    ⟨?_, ?_, ?_, ?_, ?_, ?_, ?_, ?_, ?_, ?_⟩, ?_⟩
  · rw [ht]; exact hL _
  · rw [hbv]; exact hL _
  · rw [hte]; exact hL _
  · rw [hal]; exact hL _
  · rw [hr]; exact hL _
  · rw [hp]; exact hL _
  · rw [hy]; exact hL _
  · rw [hla]; exact hL _
  · rw [hlo]; exact hL _
  · rw [hcs]; exact hL _
  · rw [ht]; exact hH _
  · rw [hbv]; exact hH _
  · rw [hte]; exact hH _
  · rw [hal]; exact hH _
  · rw [hr]; exact hH _
  · rw [hp]; exact hH _
  · rw [hy]; exact hH _
  · rw [hla]; exact hH _
  · rw [hlo]; exact hH _
  · rw [hcs]; exact hH _
  · exact hld

/-- Witness for C1: capacity 2, three adds (k = 1), concrete samples. -/
theorem store_sliding_window_witness :
    (0 : ℤ) < 2 ∧ 0 < 1 ∧ ((wMsgs.length : ℤ) = 2 + 1) ∧
      slidingWindowSpec 2 1 wMsgs :=
  ⟨by norm_num, by norm_num, by decide,
    store_sliding_window 2 1 wMsgs (by norm_num) (by norm_num) (by decide)⟩

/-- C2: add_data preserves the equal-length invariant of the ten parallel
series for every well-formed sample and every store state. -/
theorem addData_preserves_equal_lengths (st : DataStore) (s : Sample)
    (h : allEqualLengths st) : allEqualLengths (st.addData s.toMsg).1 := by
  obtain ⟨h1, h2, h3, h4, h5, h6, h7, h8, h9⟩ := h
  rw [addData_toMsg]
  show allEqualLengths (DataStore.trim _)
  unfold DataStore.trim
  dsimp only
  by_cases hc : st.max_points < (((st.timestamps ++ [s.timestamp]).length : ℕ) : ℤ)
  · rw [if_pos hc]
    unfold allEqualLengths
    dsimp only
    refine ⟨?_, ?_, ?_, ?_, ?_, ?_, ?_, ?_, ?_⟩ <;>
      (apply pySliceFrom_length_congr
       simp [List.length_append, h1, h2, h3, h4, h5, h6, h7, h8, h9])
  · rw [if_neg hc]
    unfold allEqualLengths
    dsimp only
    simp [List.length_append, h1, h2, h3, h4, h5, h6, h7, h8, h9]

/-- Witness for C2: a fresh default-capacity store and a concrete sample. -/
theorem addData_preserves_equal_lengths_witness :
    allEqualLengths (DataStore.init 100) ∧
      allEqualLengths ((DataStore.init 100).addData (wSample 1).toMsg).1 :=
  ⟨by decide,
    addData_preserves_equal_lengths (DataStore.init 100) (wSample 1) (by decide)⟩

/-- C3: after every tick, from any state, the internal battery voltage is
clamped to [8, 12], and the emitted percentage lies in [0, 100] and equals
clamp((voltage - 8) / 4 * 100, 0, 100) rounded to 1 decimal. -/
theorem battery_voltage_percentage_invariant (s : GenState) (e : TickEnv) :
    8 ≤ (generateData s e).1.battery_voltage ∧
    (generateData s e).1.battery_voltage ≤ 12 ∧
    0 ≤ (generateData s e).2.percentage ∧
    (generateData s e).2.percentage ≤ 100 ∧
    (generateData s e).2.percentage =
      pyRound 1 (max 0 (min 100 (((generateData s e).1.battery_voltage - 8) / 4 * 100))) := by
  unfold generateData
  dsimp only
  set v := max 8 (min 12 (s.battery_voltage - 1 / 1000 + e.vNoise)) with hv
  have h8 : (8 : ℚ) ≤ v := le_max_left _ _
  have h12 : v ≤ 12 := max_le (by norm_num) (min_le_left _ _)
  have hexp : (v - 8) / 4 * 100 = 25 * (v - 8) := by ring
  have harg0 : 0 ≤ (v - 8) / 4 * 100 := by rw [hexp]; linarith
  have harg100 : (v - 8) / 4 * 100 ≤ 100 := by rw [hexp]; linarith
  refine ⟨h8, h12, pyRound_nonneg 1 _ harg0, ?_, ?_⟩
  · have hle := pyRound_le 1 ((v - 8) / 4 * 100) 100 (by exact_mod_cast harg100)
    exact_mod_cast hle
  · rw [min_eq_right harg100, max_eq_right harg0]

/-- C4 (amended): after every tick the internal yaw lies in [0, 360), but
the emitted yaw value, being rounded to 2 decimals, only lies in [0, 360]
and can reach 360 exactly. -/
theorem yaw_range_after_tick (s : GenState) (e : TickEnv) :
    0 ≤ (generateData s e).1.yaw ∧
    (generateData s e).1.yaw < 360 ∧
    0 ≤ (generateData s e).2.yaw ∧
    (generateData s e).2.yaw ≤ 360 := by
  unfold generateData
  dsimp only
  have h0 := pymod_nonneg (s.yaw + 1 + e.yawNoise) 360 (by norm_num)
  have h1 := pymod_lt (s.yaw + 1 + e.yawNoise) 360 (by norm_num)
  refine ⟨h0, h1, pyRound_nonneg 2 _ h0, ?_⟩
  have hle := pyRound_le 2 (pymod (s.yaw + 1 + e.yawNoise) 360) 360 (by push_cast; linarith)
  exact_mod_cast hle

/-- C4 counterexample: with prior yaw 358.999 and yaw noise 0 (inside
[-0.5, 0.5]), the internal yaw after the tick is 359.999, yet the emitted
yaw rounds to exactly 360, so the emitted value is not in [0, 360). -/
theorem yaw_emitted_reaches_360 :
    (-(1 : ℚ) / 2 ≤ zeroEnv.yawNoise ∧ zeroEnv.yawNoise ≤ 1 / 2) ∧
    (generateData yawCexState zeroEnv).1.yaw = 359999 / 1000 ∧
    (generateData yawCexState zeroEnv).2.yaw = 360 ∧
    ¬(generateData yawCexState zeroEnv).2.yaw < 360 := by
  norm_num [generateData, yawCexState, zeroEnv, pymod, pyRound, roundHalfEven,
    Int.floor_eq_iff]

/-- C5: the pose transform is the Z (yaw) then Y (pitch) then X (roll)
composition of the standard axis rotations; with all angles zero it is the
identity and leaves the body and arm geometry unchanged; with yaw = 90
degrees and roll = pitch = 0 the front arm (tip included) is rotated by 90
degrees about the vertical z axis onto the expected coordinates. -/
theorem pose_transform_zyx :
    (∀ r p y : ℝ, poseMatrix r p y =
      ((RzStd (y * Real.pi / 180)).mul (RyStd (p * Real.pi / 180))).mul
        (RxStd (r * Real.pi / 180))) ∧
    poseMatrix 0 0 0 = Mat3.idMat ∧
    body_points.map (poseMatrix 0 0 0).apply = body_points ∧
    arm_front.map (poseMatrix 0 0 0).apply = arm_front ∧
    arm_front.map (poseMatrix 0 0 90).apply =
      [ { x := 0, y := 0, z := thickness }
      , { x := 0, y := 0, z := -thickness }
      , { x := -arm_length, y := 0, z := thickness }
      , { x := -arm_length, y := 0, z := -thickness } ] ∧
    (poseMatrix 0 0 90).apply frontArmTip = (RzStd (Real.pi / 2)).apply frontArmTip := by
  have happ : Mat3.idMat.apply = id := funext fun v => by
    rw [Mat3.apply_idMat]
    rfl
  refine ⟨pose_eq_std, pose_zero, ?_, ?_, ?_, ?_⟩
  · rw [pose_zero, happ, List.map_id]
  · rw [pose_zero, happ, List.map_id]
  · rw [pose_yaw90, RzStd_pi_div_two]
    unfold arm_front
    simp [Mat3.apply]
  · rw [pose_yaw90]

/-- C6: the code violates the claim: a message whose sensors entry is
missing is not rejected cleanly - add_data has already updated the latest
pointer and appended to the timestamp and voltage series when the KeyError
fires, leaving the parallel series with unequal lengths, and the exception
escapes the drain loop so the following well-formed message is not
processed in that pass. -/
theorem malformed_message_corrupts_store :
    (processQueue (DataStore.init 100) [badMsg, (wSample 2).toMsg]).1.timestamps.length = 1 ∧
    (processQueue (DataStore.init 100) [badMsg, (wSample 2).toMsg]).1.temperature.length = 0 ∧
    ¬allEqualLengths (processQueue (DataStore.init 100) [badMsg, (wSample 2).toMsg]).1 ∧
    (processQueue (DataStore.init 100) [badMsg, (wSample 2).toMsg]).1.latest_data = some badMsg ∧
    (processQueue (DataStore.init 100) [badMsg, (wSample 2).toMsg]).2.1 = [(wSample 2).toMsg] ∧
    (processQueue (DataStore.init 100) [badMsg, (wSample 2).toMsg]).2.2 = false := by
  refine ⟨rfl, rfl, ?_, rfl, rfl, rfl⟩
  decide

/-- C7: the code violates the claim: DataStore.__init__ stores any
max_points without validation, so construction with capacity 0 or -1
succeeds and produces a store that add_data happily works on. -/
theorem init_accepts_nonpositive_capacity :
    (DataStore.init 0).max_points = 0 ∧
    (DataStore.init 0).timestamps = [] ∧
    ((DataStore.init 0).addData (wSample 1).toMsg).2 = true ∧
    ((DataStore.init 0).addData (wSample 1).toMsg).1.timestamps.length = 1 ∧
    (DataStore.init (-1)).max_points = -1 ∧
    ((DataStore.init (-1)).addData (wSample 1).toMsg).2 = true := by
  decide

/-- C8: the consumer loop catches every channel exception, sleeps exactly 5
seconds after each failed attempt regardless of how many came before (no
backoff, no cap), and never lets the exception escape: any finite history of
attempts ends in an ok state with one retry and 5 more slept seconds per
attempt. -/
theorem consumer_retries_forever (st : ClientState) (as : List ConnAttempt) :
    ∃ stf : ClientState, clientRun st as = Except.ok stf ∧
      stf.attempts = st.attempts + as.length ∧
      stf.slept = st.slept + 5 * (as.length : ℚ) := by
  induction as generalizing st with
  | nil =>
    exact ⟨st, rfl, by simp, by simp⟩
  | cons a rest ih =>
    have hrun : clientRun st (a :: rest) =
        clientRun
          { queue := (tryBody st.queue a).1
            attempts := st.attempts + 1
            slept := st.slept + 5 } rest := rfl
    obtain ⟨stf, h1, h2, h3⟩ := ih
      { queue := (tryBody st.queue a).1
        attempts := st.attempts + 1
        slept := st.slept + 5 }
    refine ⟨stf, by rw [hrun]; exact h1, ?_, ?_⟩
    · dsimp only at h2
      rw [h2, List.length_cons]
      omega
    · dsimp only at h3
      rw [h3, List.length_cons]
      push_cast
      ring

/-- C9: rounding is only applied to the returned sample: the state after a
tick consists of the full-precision update results, and every numeric entry
of the returned sample is the rounding of the corresponding state value. -/
theorem rounding_never_feeds_back (s : GenState) (e : TickEnv) :
    ((generateData s e).1.battery_voltage =
        max 8 (min 12 (s.battery_voltage - 1 / 1000 + e.vNoise)) ∧
     (generateData s e).1.temperature = s.temperature + e.tempNoise ∧
     (generateData s e).1.roll = 15 * e.sin_t5 + e.rollNoise ∧
     (generateData s e).1.pitch = 10 * e.cos_t7 + e.pitchNoise ∧
     (generateData s e).1.yaw = pymod (s.yaw + 1 + e.yawNoise) 360 ∧
     (generateData s e).1.altitude = 100 + 10 * e.sin_t15 + e.altNoise ∧
     (generateData s e).1.latitude = s.latitude + 1 / 10000 * e.sin_t20 ∧
     (generateData s e).1.longitude = s.longitude + 1 / 10000 * e.cos_t20 ∧
     (generateData s e).1.time_offset = s.time_offset + UPDATE_INTERVAL) ∧
    ((generateData s e).2.voltage = pyRound 2 (generateData s e).1.battery_voltage ∧
     (generateData s e).2.percentage =
        pyRound 1 (((generateData s e).1.battery_voltage - 8) / 4 * 100) ∧
     (generateData s e).2.temperature = pyRound 1 (generateData s e).1.temperature ∧
     (generateData s e).2.altitude = pyRound 1 (generateData s e).1.altitude ∧
     (generateData s e).2.roll = pyRound 2 (generateData s e).1.roll ∧
     (generateData s e).2.pitch = pyRound 2 (generateData s e).1.pitch ∧
     (generateData s e).2.yaw = pyRound 2 (generateData s e).1.yaw ∧
     (generateData s e).2.latitude = pyRound 6 (generateData s e).1.latitude ∧
     (generateData s e).2.longitude = pyRound 6 (generateData s e).1.longitude ∧
     (generateData s e).2.gps_altitude = pyRound 1 (generateData s e).1.altitude) :=
  ⟨⟨rfl, rfl, rfl, rfl, rfl, rfl, rfl, rfl, rfl⟩,
   ⟨rfl, rfl, rfl, rfl, rfl, rfl, rfl, rfl, rfl, rfl⟩⟩

/-- C10: with max_points = 0 the trim slice [-0:] is the whole list, so the
store grows without bound: after n adds every series has length exactly n. -/
theorem capacity_zero_store_grows_unbounded :
    (∀ l : List ℚ, pySliceFrom (-(0 : ℤ)) l = l) ∧
    ∀ msgs : List Sample,
      (runStore 0 msgs).timestamps.length = msgs.length ∧
      (runStore 0 msgs).battery_voltage.length = msgs.length ∧
      (runStore 0 msgs).temperature.length = msgs.length ∧
      (runStore 0 msgs).altitude.length = msgs.length ∧
      (runStore 0 msgs).roll.length = msgs.length ∧
      (runStore 0 msgs).pitch.length = msgs.length ∧
      (runStore 0 msgs).yaw.length = msgs.length ∧
      (runStore 0 msgs).latitude.length = msgs.length ∧
      (runStore 0 msgs).longitude.length = msgs.length ∧
      (runStore 0 msgs).connection_strength.length = msgs.length := by
  constructor
  · intro l
    rw [neg_zero]
    exact pySliceFrom_zero l
  · intro msgs
    obtain ⟨hmp, hts, hbv, hte, hal, hr, hp, hy, hla, hlo, hcs⟩ :=
      addAll_zero_lengths msgs (DataStore.init 0) rfl
    unfold runStore
    refine ⟨?_, ?_, ?_, ?_, ?_, ?_, ?_, ?_, ?_, ?_⟩
    · simpa [DataStore.init] using hts
    · simpa [DataStore.init] using hbv
    · simpa [DataStore.init] using hte
    · simpa [DataStore.init] using hal
    · simpa [DataStore.init] using hr
    · simpa [DataStore.init] using hp
    · simpa [DataStore.init] using hy
    · simpa [DataStore.init] using hla
    · simpa [DataStore.init] using hlo
    · simpa [DataStore.init] using hcs

end DroneTelemetry
